import Mathlib

/-
Verification of the movie-recommendation script `basic_recommender.py`.

The script is embedded shallowly:

* DataFrames become lists of records (`Movie`, `Rating`); row order is list
  order.
* `re.search(r"\((\d{4})\)", title)` becomes a left-to-right scan over the
  character list of the title (`searchYear`), matching the anchored pattern
  `yearAt` at each start position; `\d` is modelled as an ASCII digit.
* `Series.str.contains(genre, case=False, na=False)` is modelled as
  case-insensitive substring containment (`containsCI`), its behaviour for
  patterns free of regular-expression metacharacters, which genre names are;
  lower-casing is ASCII `Char.toLower`, matching `re.IGNORECASE` on the
  catalog alphabet, and the genre column is always present (`na=False` never
  fires).
* The Surprise library is kept abstract: the fitted model is an arbitrary
  function from the raw id pair passed to `model.predict` to an estimated
  score.  Raw ids are `PyVal`s, because the Python code mixes `int` ids (the
  DataFrame id columns) with `str` ids (the arguments it builds for
  `model.predict`).
* `DataFrame.sample(k)` (uniform sampling without replacement) is modelled by
  an arbitrary permutation `perm` of the row positions: the sample is the
  rows at the first `k` entries of `perm`.
* The console loop of `get_user_ratings` is modelled by a list of responses,
  one per presented movie: `some r` when `float(input())` parses to `r`,
  `none` when it raises `ValueError`.  Scores are rationals.
* Python `sorted(key=lambda x: x.est, reverse=True)` is a stable descending
  sort; it is modelled by `List.mergeSort` with the total order `predLe`.
-/

namespace BasicRecommender

/-- A row of `movies.csv`: movie id, title and pipe-separated genre string. -/
structure Movie where
  movieId : Int
  title : String
  genres : String
  deriving Repr, DecidableEq

/-- A row of the ratings table (`ratings.csv` or collected interactively). -/
structure Rating where
  userId : Int
  movieId : Int
  rating : Rat
  deriving Repr, DecidableEq

/-- Numeric value of an ASCII digit character. -/
def digitVal (c : Char) : Int := (c.toNat : Int) - 48

/-- Value of the four digit characters of a `(dddd)` window. -/
def fourDigitVal (d1 d2 d3 d4 : Char) : Int :=
  1000 * digitVal d1 + 100 * digitVal d2 + 10 * digitVal d3 + digitVal d4

/-- The anchored pattern `\((\d{4})\)` of `extract_year`, tried at the head of
the character list: an opening parenthesis, exactly four digits, a closing
parenthesis.  Returns the value of the digit group on success. -/
def yearAt : List Char → Option Int
  | '(' :: d1 :: d2 :: d3 :: d4 :: ')' :: _ =>
    if d1.isDigit && d2.isDigit && d3.isDigit && d4.isDigit then
      some (fourDigitVal d1 d2 d3 d4)
    else none
  | _ => none

/-- The `re.search` strategy: try the anchored pattern at every start
position, left to right; the first position that matches wins. -/
def searchYear : List Char → Option Int
  | [] => none
  | c :: cs =>
    match yearAt (c :: cs) with
    | some y => some y
    | none => searchYear cs

/-- `extract_year` from `basic_recommender.py`: the integer value of the digit
group of the first `re.search` match of `\((\d{4})\)` in the title, `None`
when there is no match. -/
def extract_year (title : String) : Option Int :=
  searchYear title.data

/-- Claim-side notion for C10: a substring of the form `(dddd)` — exactly four
digits enclosed in parentheses — read off as a six-character window. -/
def parenYearAt (cs : List Char) : Option Int :=
  match cs.take 6 with
  | ['(', d1, d2, d3, d4, ')'] =>
    if d1.isDigit && d2.isDigit && d3.isDigit && d4.isDigit then
      some (fourDigitVal d1 d2 d3 d4)
    else none
  | _ => none

/-- Claim-side reading of the year extraction (C10): scan all start positions
of the title in order and return the value of the first `(dddd)` substring;
`none` when no position carries one. -/
def firstParenYear (title : String) : Option Int :=
  (List.range title.data.length).findSome? (fun i => parenYearAt (title.data.drop i))

/-- ASCII lower-casing of a string as a character list (models `case=False`). -/
def lowerChars (s : String) : List Char := s.data.map Char.toLower

/-- Does the first list start the second one? -/
def prefixOf : List Char → List Char → Bool
  | [], _ => true
  | _ :: _, [] => false
  | p :: ps, c :: cs => p == c && prefixOf ps cs

/-- Substring test on character lists: the pattern occurs at some position. -/
def containsChars (hay pat : List Char) : Bool :=
  match hay with
  | [] => pat.isEmpty
  | c :: rest => prefixOf pat (c :: rest) || containsChars rest pat

/-- `Series.str.contains(pat, case=False, na=False)` for a metacharacter-free
pattern: the lower-cased pattern occurs in the lower-cased string. -/
def containsCI (hay pat : String) : Bool :=
  containsChars (lowerChars hay) (lowerChars pat)

/-- The column comparison `movies["year"] > min_year`: false when the year is
missing (a `NaN` year compares false in pandas). -/
def yearGtBool (min_year : Int) (m : Movie) : Bool :=
  match extract_year m.title with
  | some y => decide (min_year < y)
  | none => false

/-- The column comparison `movies["year"] >= min_year` of the sampler: false
when the year is missing. -/
def yearGeBool (min_year : Int) (m : Movie) : Bool :=
  match extract_year m.title with
  | some y => decide (min_year ≤ y)
  | none => false

/-- The filtered pool of `get_movies_by_genre_and_year`: genre substring match
(case-insensitive) and year present and at least `min_year`. -/
def samplePool (movies : List Movie) (genre : String) (min_year : Int) : List Movie :=
  movies.filter (fun m => containsCI m.genres genre && yearGeBool min_year m)

/-- Models `pool.sample(k)`: pandas draws `k` distinct row positions without
replacement; the randomness is abstracted as a permutation `perm` of the row
positions, of which the first `k` entries are the drawn positions. -/
def pandasSample (pool : List Movie) (k : Nat) (perm : List Nat) : List Movie :=
  (perm.take k).filterMap (fun i => pool[i]?)

/-- `get_movies_by_genre_and_year` from `basic_recommender.py`: filter the
catalog by genre and year, raise `ValueError` on an empty pool, otherwise
return a random sample of `min(n, len(pool))` rows. -/
def get_movies_by_genre_and_year (movies : List Movie) (genre : String)
    (min_year : Int) (n : Nat) (perm : List Nat) : Except String (List Movie) :=
  let pool := samplePool movies genre min_year
  if pool.isEmpty then
    Except.error "No movies match that genre/year combination."
  else
    Except.ok (pandasSample pool (min n pool.length) perm)

/-- `get_user_ratings` from `basic_recommender.py`.  The interactive loop is
driven by one response per presented movie: `some r` when `float(input())`
returns `r`, `none` when it raises `ValueError`.  Returns the collected
ratings (tagged with the synthetic user id 9999) paired with the number of
"Invalid input. Skipping." warnings printed. -/
def get_user_ratings : List Movie → List (Option Rat) → List Rating × Nat
  | [], _ => ([], 0)
  | _ :: _, [] => ([], 0)
  | m :: ms, some r :: rs =>
    if mkRat 1 2 ≤ r then
      (⟨9999, m.movieId, r⟩ :: (get_user_ratings ms rs).1, (get_user_ratings ms rs).2)
    else
      get_user_ratings ms rs
  | _ :: ms, none :: rs =>
    ((get_user_ratings ms rs).1, (get_user_ratings ms rs).2 + 1)

/-- `append_user_data` from `basic_recommender.py`: `pd.concat` of the two
tables with the index reset, i.e. plain row concatenation. -/
def append_user_data (existing_ratings user_ratings : List Rating) : List Rating :=
  existing_ratings ++ user_ratings

/-- A raw Python value handed to the Surprise API: the DataFrame id columns
hold machine integers, while `train_and_recommend` builds strings. -/
inductive PyVal where
  | int (n : Int) : PyVal
  | str (s : String) : PyVal
  deriving Repr, DecidableEq

/-- Raw user ids of the Surprise trainset built by `Dataset.load_from_df` from
the merged ratings table: the values of the `userId` column, integers. -/
def trainsetUsers (all_ratings : List Rating) : List PyVal :=
  all_ratings.map (fun r => PyVal.int r.userId)

/-- Raw item ids of the Surprise trainset: the `movieId` column, integers. -/
def trainsetItems (all_ratings : List Rating) : List PyVal :=
  all_ratings.map (fun r => PyVal.int r.movieId)

/-- The raw id pair `train_and_recommend` passes to `model.predict` for a
candidate row: `(str(user_id), str(row["movieId"]))`. -/
def predictQuery (user_id : Int) (m : Movie) : PyVal × PyVal :=
  (PyVal.str (toString user_id), PyVal.str (toString m.movieId))

/-- The seen set: the movie ids rated by `user_id` in the merged table. -/
def seenIds (all_ratings : List Rating) (user_id : Int) : List Int :=
  (all_ratings.filter (fun r => r.userId == user_id)).map (fun r => r.movieId)

/-- The candidate pool of `train_and_recommend`: catalog movies not in the
seen set, further filtered by genre substring and strict year comparison. -/
def recommendCandidates (movies : List Movie) (all_ratings : List Rating)
    (genre_filter : String) (min_year : Int) (user_id : Int) : List Movie :=
  (movies.filter (fun m => !decide (m.movieId ∈ seenIds all_ratings user_id))).filter
    (fun m => containsCI m.genres genre_filter && yearGtBool min_year m)

/-- One Surprise prediction as produced in the list comprehension: the raw id
pair passed to `model.predict`, the candidate id it came from (which
`int(pred.iid)` recovers exactly, since `iid = str(row["movieId"])`), and the
estimated score. -/
structure Pred where
  uid : PyVal
  iid : PyVal
  movieId : Int
  est : Rat
  deriving Repr, DecidableEq

/-- The prediction list of `train_and_recommend`: one `model.predict` call per
candidate, with the raw id pair `predictQuery`. -/
def recommendPredictions (model : PyVal → PyVal → Rat) (movies : List Movie)
    (all_ratings : List Rating) (genre_filter : String) (min_year : Int)
    (user_id : Int) : List Pred :=
  (recommendCandidates movies all_ratings genre_filter min_year user_id).map
    (fun m =>
      { uid := (predictQuery user_id m).1
        iid := (predictQuery user_id m).2
        movieId := m.movieId
        est := model (predictQuery user_id m).1 (predictQuery user_id m).2 })

/-- The retention filter `pred.est > 3`. -/
def recommendRetained (model : PyVal → PyVal → Rat) (movies : List Movie)
    (all_ratings : List Rating) (genre_filter : String) (min_year : Int)
    (user_id : Int) : List Pred :=
  (recommendPredictions model movies all_ratings genre_filter min_year user_id).filter
    (fun p => decide ((3 : Rat) < p.est))

/-- The comparator of `sorted(..., key=lambda x: x.est, reverse=True)`:
descending by estimate.  `List.mergeSort` with this comparator is the stable
descending sort Python performs. -/
def predLe (a b : Pred) : Bool := decide (b.est ≤ a.est)

/-- Retained predictions sorted by estimate descending (stably) and truncated
to `top_n`. -/
def recommendSorted (model : PyVal → PyVal → Rat) (movies : List Movie)
    (all_ratings : List Rating) (genre_filter : String) (min_year : Int)
    (user_id : Int) (top_n : Nat) : List Pred :=
  ((recommendRetained model movies all_ratings genre_filter min_year user_id).mergeSort
    predLe).take top_n

/-- The lookup `movies[movies["movieId"] == int(pred.iid)]["title"].values[0]`:
the title of the first catalog row with the given id.  The empty-result branch
(modelled by "") is the fatal lookup error of the script; it cannot occur for
candidates drawn from the catalog. -/
def titleOf (movies : List Movie) (mid : Int) : String :=
  ((movies.find? (fun mv => mv.movieId == mid)).map Movie.title).getD ""

/-- `train_and_recommend` from `basic_recommender.py`: compute the candidate
pool, return `[]` when it is empty, otherwise score every candidate, keep the
estimates above 3, sort them descending (stably), truncate to `top_n` and map
the ids back to titles. -/
def train_and_recommend (model : PyVal → PyVal → Rat) (movies : List Movie)
    (all_ratings : List Rating) (genre_filter : String) (min_year : Int)
    (user_id : Int) (top_n : Nat) : List (String × Rat) :=
  if (recommendCandidates movies all_ratings genre_filter min_year user_id).isEmpty then
    []
  else
    (recommendSorted model movies all_ratings genre_filter min_year user_id top_n).map
      (fun p => (titleOf movies p.movieId, p.est))

/-- Demonstration catalog used by the concrete witnesses. -/
def demoMovies : List Movie :=
  [⟨1, "Toy Story (1995)", "Adventure|Animation|Children|Comedy|Fantasy"⟩,
   ⟨2, "Jumanji (1995)", "Adventure|Children|Fantasy"⟩]

/-- Demonstration merged ratings table: one base rating and one rating by the
synthetic user 9999, both for movie 2. -/
def demoRatings : List Rating :=
  [⟨7, 2, 4⟩, ⟨9999, 2, 5⟩]

/-- Demonstration stand-in for the fitted Surprise model: a constant score. -/
def demoModel : PyVal → PyVal → Rat := fun _ _ => 4

/-! ### Year extraction (claim C10) -/

/-- The anchored matcher and the claim-side six-character window agree. -/
lemma yearAt_eq_parenYearAt (cs : List Char) : yearAt cs = parenYearAt cs := by
  unfold yearAt
  split
  · rename_i d1 d2 d3 d4 rest
    rfl
  · rename_i h
    unfold parenYearAt
    split
    · rename_i d1 d2 d3 d4 heq
      exfalso
      have hcs : cs = '(' :: d1 :: d2 :: d3 :: d4 :: ')' :: cs.drop 6 := by
        conv_lhs => rw [← List.take_append_drop 6 cs]
        rw [heq]
        rfl
      exact h d1 d2 d3 d4 (cs.drop 6) hcs
    · rfl

/-- The left-to-right scan returns the value at the first matching start
position. -/
lemma searchYear_eq_first (cs : List Char) :
    searchYear cs = (List.range cs.length).findSome? (fun i => parenYearAt (cs.drop i)) := by
  induction cs with
  | nil => simp [searchYear]
  | cons c cs ih =>
    rw [searchYear, yearAt_eq_parenYearAt, List.length_cons, List.range_succ_eq_map,
      List.findSome?_cons]
    cases h : parenYearAt (c :: cs) with
    | some y => simp [h]
    | none =>
      simp only [List.drop_zero, h, List.findSome?_map]
      rw [ih]
      congr 1

/-- C10: the year extraction of the catalog loader is total and returns the
integer value of the first substring of the form `(dddd)` — exactly four
digits enclosed in parentheses — occurring anywhere in the title (not only as
a trailing suffix), and `none` when no such substring exists: `extract_year`
agrees with the claim-side scan `firstParenYear` on every title. -/
theorem extract_year_eq_firstParenYear (title : String) :
    extract_year title = firstParenYear title :=
  searchYear_eq_first title.data

/-! ### Substring containment and the year predicates -/

/-- Correctness of the prefix test. -/
lemma prefixOf_iff (p cs : List Char) :
    prefixOf p cs = true ↔ ∃ rest, cs = p ++ rest := by
  induction p generalizing cs with
  | nil => simp [prefixOf]
  | cons a as ih =>
    cases cs with
    | nil => simp [prefixOf]
    | cons c cs =>
      simp only [prefixOf, Bool.and_eq_true, beq_iff_eq, ih, List.cons_append,
        List.cons.injEq]
      constructor
      · rintro ⟨rfl, rest, rfl⟩
        exact ⟨rest, rfl, rfl⟩
      · rintro ⟨rest, rfl, rfl⟩
        exact ⟨rfl, rest, rfl⟩

/-- Correctness of the substring test: it holds exactly when the pattern is a
contiguous segment of the string. -/
lemma containsChars_iff (hay pat : List Char) :
    containsChars hay pat = true ↔ ∃ pre post, hay = pre ++ pat ++ post := by
  induction hay with
  | nil =>
    simp only [containsChars, List.isEmpty_iff]
    constructor
    · rintro rfl
      exact ⟨[], [], rfl⟩
    · rintro ⟨pre, post, h⟩
      rcases List.append_eq_nil.mp h.symm with ⟨h1, h2⟩
      exact (List.append_eq_nil.mp h1).2
  | cons c rest ih =>
    simp only [containsChars, Bool.or_eq_true, prefixOf_iff, ih]
    constructor
    · rintro (⟨r, hr⟩ | ⟨pre, post, hp⟩)
      · exact ⟨[], r, by simpa using hr⟩
      · exact ⟨c :: pre, post, by simp [hp]⟩
    · rintro ⟨pre, post, h⟩
      cases pre with
      | nil =>
        left
        exact ⟨post, by simpa using h⟩
      | cons a pre =>
        right
        rw [List.cons_append, List.cons_append, List.cons.injEq] at h
        exact ⟨pre, post, h.2⟩

/-- The strict year filter holds exactly when the parsed year is defined and
strictly above the bound. -/
lemma yearGtBool_iff (min_year : Int) (m : Movie) :
    yearGtBool min_year m = true ↔ ∃ y, extract_year m.title = some y ∧ min_year < y := by
  unfold yearGtBool
  cases h : extract_year m.title <;> simp

/-- The inclusive year filter holds exactly when the parsed year is defined
and at least the bound. -/
lemma yearGeBool_iff (min_year : Int) (m : Movie) :
    yearGeBool min_year m = true ↔ ∃ y, extract_year m.title = some y ∧ min_year ≤ y := by
  unfold yearGeBool
  cases h : extract_year m.title <;> simp

/-! ### Dataset merging (claim C7) -/

/-- C7: merging is pure concatenation: the length is the sum of the lengths,
the first rows are the base table in base order, the remaining rows are the
additions in addition order, and merging an empty addition list returns the
base table unchanged. -/
theorem append_user_data_concat (base additions : List Rating) :
    (append_user_data base additions).length = base.length + additions.length ∧
    (append_user_data base additions).take base.length = base ∧
    (append_user_data base additions).drop base.length = additions ∧
    append_user_data base [] = base := by
  refine ⟨?_, ?_, ?_, ?_⟩ <;> simp [append_user_data]

/-! ### The sampler (claims C5 and C6) -/

/-- C6: when no catalog movie passes the genre and inclusive-year filter, the
sampler raises the `ValueError` (the `NoMatchError` of the design) instead of
returning a sample. -/
theorem sample_empty_pool_fails (movies : List Movie) (genre : String)
    (min_year : Int) (n : Nat) (perm : List Nat)
    (h : ∀ m ∈ movies, ¬(containsCI m.genres genre && yearGeBool min_year m) = true) :
    get_movies_by_genre_and_year movies genre min_year n perm =
      Except.error "No movies match that genre/year combination." := by
  have hpool : samplePool movies genre min_year = [] := List.filter_eq_nil_iff.mpr h
  simp [get_movies_by_genre_and_year, hpool]

/-- Concrete run of C6: the demonstration catalog has no Romance movie, so the
sampler fails with the error message. -/
theorem sample_empty_pool_fails_witness :
    (∀ m ∈ demoMovies, ¬(containsCI m.genres "Romance" && yearGeBool 1990 m) = true) ∧
    get_movies_by_genre_and_year demoMovies "Romance" 1990 15 [0, 1] =
      Except.error "No movies match that genre/year combination." :=
  ⟨by decide, sample_empty_pool_fails demoMovies "Romance" 1990 15 [0, 1] (by decide)⟩

/-! ### The rating collector (claims C8 and C9) -/

/-- Every collected rating carries the id of a presented movie. -/
lemma collect_ids_sub (sample : List Movie) (responses : List (Option Rat)) :
    ∀ x ∈ (get_user_ratings sample responses).1, x.movieId ∈ sample.map Movie.movieId := by
  induction sample generalizing responses with
  | nil => simp [get_user_ratings]
  | cons m ms ih =>
    cases responses with
    | nil => simp [get_user_ratings]
    | cons resp rs =>
      cases resp with
      | some r =>
        intro x hx
        simp only [get_user_ratings] at hx
        by_cases hr : mkRat 1 2 ≤ r
        · rw [if_pos hr] at hx
          rcases List.mem_cons.mp hx with rfl | hx
          · simp
          · exact List.mem_cons_of_mem _ (ih rs x hx)
        · rw [if_neg hr] at hx
          exact List.mem_cons_of_mem _ (ih rs x hx)
      | none =>
        intro x hx
        simp only [get_user_ratings] at hx
        exact List.mem_cons_of_mem _ (ih rs x hx)

/-- Every collected rating has a score of at least 0.5 and the synthetic user
id 9999. -/
lemma collect_scores_ge_half (sample : List Movie) (responses : List (Option Rat)) :
    ∀ x ∈ (get_user_ratings sample responses).1, mkRat 1 2 ≤ x.rating ∧ x.userId = 9999 := by
  induction sample generalizing responses with
  | nil => simp [get_user_ratings]
  | cons m ms ih =>
    cases responses with
    | nil => simp [get_user_ratings]
    | cons resp rs =>
      cases resp with
      | some r =>
        intro x hx
        simp only [get_user_ratings] at hx
        by_cases hr : mkRat 1 2 ≤ r
        · rw [if_pos hr] at hx
          rcases List.mem_cons.mp hx with rfl | hx
          · exact ⟨hr, rfl⟩
          · exact ih rs x hx
        · rw [if_neg hr] at hx
          exact ih rs x hx
      | none =>
        intro x hx
        simp only [get_user_ratings] at hx
        exact ih rs x hx

/-- C8 counterexample: the collector does not validate the upper bound of the
rating scale.  With one candidate and the entered score 6, a rating with score
6 is recorded, although 6 does not lie in [0.5, 5]. -/
theorem collect_records_six_counterexample :
    (get_user_ratings [⟨1, "Toy Story (1995)", "Adventure|Animation|Children|Comedy|Fantasy"⟩]
        [some 6]).1 = [⟨9999, 1, 6⟩] ∧ ¬((6 : Rat) ≤ 5) := by
  decide

/-- C8 (amended): the collector records a rating for a candidate if and only
if the entered score is at least 0.5; an entered value of 0, any value below
0.5, and a non-numeric entry are skips with nothing recorded.  No upper bound
is enforced (the 5.0 end of the claimed interval is not validated).  Candidate
ids are assumed distinct, as produced by the sampler from `movies.csv`. -/
theorem collect_records_iff_ge_half (sample : List Movie)
    (responses : List (Option Rat)) (hnd : (sample.map Movie.movieId).Nodup) :
    (∀ x ∈ (get_user_ratings sample responses).1, mkRat 1 2 ≤ x.rating ∧ x.userId = 9999) ∧
    ∀ mr ∈ sample.zip responses,
      ((∃ r, mr.2 = some r ∧ mkRat 1 2 ≤ r) ↔
        ∃ x ∈ (get_user_ratings sample responses).1, x.movieId = mr.1.movieId) := by
  refine ⟨collect_scores_ge_half sample responses, ?_⟩
  induction sample generalizing responses with
  | nil => simp
  | cons m ms ih =>
    cases responses with
    | nil => simp
    | cons resp rs =>
      rw [List.map_cons, List.nodup_cons] at hnd
      intro mr hmr
      rcases List.mem_cons.mp hmr with rfl | hmr
      · constructor
        · rintro ⟨r, hr, hge⟩
          have hresp : resp = some r := hr
          subst hresp
          simp only [get_user_ratings, if_pos hge]
          exact ⟨⟨9999, m.movieId, r⟩, List.mem_cons_self _ _, rfl⟩
        · rintro ⟨x, hx, hid⟩
          cases resp with
          | some r =>
            by_cases hr : mkRat 1 2 ≤ r
            · exact ⟨r, rfl, hr⟩
            · simp only [get_user_ratings, if_neg hr] at hx
              exact absurd (hid ▸ collect_ids_sub ms rs x hx) hnd.1
          | none =>
            simp only [get_user_ratings] at hx
            exact absurd (hid ▸ collect_ids_sub ms rs x hx) hnd.1
      · have hmem := List.of_mem_zip hmr
        have hidne : m.movieId ≠ mr.1.movieId := by
          intro h
          exact hnd.1 (h ▸ List.mem_map_of_mem Movie.movieId hmem.1)
        rw [ih rs hnd.2 mr hmr]
        constructor
        · rintro ⟨x, hx, hid⟩
          refine ⟨x, ?_, hid⟩
          cases resp with
          | some r =>
            simp only [get_user_ratings]
            by_cases hr : mkRat 1 2 ≤ r
            · rw [if_pos hr]
              exact List.mem_cons_of_mem _ hx
            · rw [if_neg hr]
              exact hx
          | none =>
            simp only [get_user_ratings]
            exact hx
        · rintro ⟨x, hx, hid⟩
          cases resp with
          | some r =>
            by_cases hr : mkRat 1 2 ≤ r
            · simp only [get_user_ratings, if_pos hr] at hx
              rcases List.mem_cons.mp hx with rfl | hx
              · exact absurd hid hidne
              · exact ⟨x, hx, hid⟩
            · simp only [get_user_ratings, if_neg hr] at hx
              exact ⟨x, hx, hid⟩
          | none =>
            simp only [get_user_ratings] at hx
            exact ⟨x, hx, hid⟩

/-- Concrete run of C8 (amended): two candidates, scores 4 (recorded) and 0.25
(skipped). -/
theorem collect_records_iff_ge_half_witness :
    (demoMovies.map Movie.movieId).Nodup ∧
    (∀ x ∈ (get_user_ratings demoMovies [some 4, some (mkRat 1 4)]).1,
      mkRat 1 2 ≤ x.rating ∧ x.userId = 9999) ∧
    ∀ mr ∈ demoMovies.zip [some (4 : Rat), some (mkRat 1 4)],
      ((∃ r, mr.2 = some r ∧ mkRat 1 2 ≤ r) ↔
        ∃ x ∈ (get_user_ratings demoMovies [some 4, some (mkRat 1 4)]).1,
          x.movieId = mr.1.movieId) :=
  ⟨by decide, collect_records_iff_ge_half demoMovies [some 4, some (mkRat 1 4)] (by decide)⟩

/-- C9: a non-numeric entry is a local skip: it records nothing for that
candidate, surfaces exactly one more "Invalid input. Skipping." warning, and
the loop continues — the candidates before and after the failing one are
processed exactly as they would be without it. -/
theorem collect_invalid_skips_and_continues (s1 s2 : List Movie) (m : Movie)
    (r1 r2 : List (Option Rat)) (hlen : s1.length = r1.length) :
    get_user_ratings (s1 ++ m :: s2) (r1 ++ none :: r2) =
      ((get_user_ratings (s1 ++ s2) (r1 ++ r2)).1,
        (get_user_ratings (s1 ++ s2) (r1 ++ r2)).2 + 1) := by
  induction s1 generalizing r1 with
  | nil =>
    rw [List.length_nil] at hlen
    rw [List.eq_nil_of_length_eq_zero hlen.symm]
    simp [get_user_ratings]
  | cons a as ih =>
    cases r1 with
    | nil => simp at hlen
    | cons b bs =>
      have hlen2 : as.length = bs.length := by simpa using hlen
      have ihb := ih bs hlen2
      cases b with
      | some r =>
        simp only [List.cons_append, get_user_ratings, ihb]
        by_cases hr : mkRat 1 2 ≤ r
        · simp [hr, ihb]
        · simp [hr, ihb]
      | none =>
        simp [List.cons_append, get_user_ratings, ihb]

/-- Concrete run of C9: a non-numeric third entry is skipped with one warning
while both other candidates are still processed. -/
theorem collect_invalid_skips_and_continues_witness :
    demoMovies.length = [some (4 : Rat), some 2].length ∧
    get_user_ratings (demoMovies ++ ⟨3, "Heat (1995)", "Action|Crime|Thriller"⟩ :: [])
        ([some 4, some 2] ++ none :: []) =
      ((get_user_ratings (demoMovies ++ []) ([some 4, some 2] ++ [])).1,
        (get_user_ratings (demoMovies ++ []) ([some 4, some 2] ++ [])).2 + 1) :=
  ⟨by decide,
   collect_invalid_skips_and_continues demoMovies [] ⟨3, "Heat (1995)", "Action|Crime|Thriller"⟩
     [some 4, some 2] [] (by decide)⟩

/-! ### Position-based sampling -/

/-- Drawing at valid positions yields one row per position. -/
lemma length_filterMap_getElem (l : List Movie) (idxs : List Nat)
    (h : ∀ i ∈ idxs, i < l.length) :
    (idxs.filterMap (fun i => l[i]?)).length = idxs.length := by
  induction idxs with
  | nil => rfl
  | cons i rest ih =>
    have hi : i < l.length := h i (List.mem_cons_self _ _)
    rw [List.filterMap_cons, List.getElem?_eq_getElem hi]
    simp [ih fun j hj => h j (List.mem_cons_of_mem _ hj)]

/-- Membership in a draw: every drawn row sits at some drawn position. -/
lemma mem_filterMap_getElem {l : List Movie} {idxs : List Nat} {x : Movie} :
    x ∈ idxs.filterMap (fun i => l[i]?) ↔
      ∃ i ∈ idxs, ∃ hi : i < l.length, l[i] = x := by
  simp only [List.mem_filterMap, List.getElem?_eq_some]

/-- A draw at distinct valid positions of a duplicate-free list is
duplicate-free. -/
lemma nodup_filterMap_getElem (l : List Movie) (idxs : List Nat)
    (hl : l.Nodup) (hidx : idxs.Nodup) (h : ∀ i ∈ idxs, i < l.length) :
    (idxs.filterMap (fun i => l[i]?)).Nodup := by
  induction idxs with
  | nil => exact List.nodup_nil
  | cons i rest ih =>
    have hi : i < l.length := h i (List.mem_cons_self _ _)
    rw [List.filterMap_cons, List.getElem?_eq_getElem hi]
    rw [List.nodup_cons] at hidx
    refine List.nodup_cons.mpr ⟨?_, ih hidx.2 fun j hj => h j (List.mem_cons_of_mem _ hj)⟩
    intro hmem
    rcases mem_filterMap_getElem.mp hmem with ⟨j, hjr, hj, hget⟩
    have : j = i := (hl.getElem_inj_iff).mp hget
    exact hidx.1 (this ▸ hjr)

/-- C5: with a nonempty filtered pool and a fresh pandas draw (an arbitrary
permutation of the pool positions), the sampler returns exactly
`min n |pool|` distinct movies, each of whose genre string contains the genre
argument as a case-insensitive substring and whose parsed year is defined and
at least `min_year` (catalog rows assumed distinct, as in `movies.csv`). -/
theorem sample_returns_min_distinct (movies : List Movie) (genre : String)
    (min_year : Int) (n : Nat) (perm : List Nat)
    (hnd : movies.Nodup)
    (hperm : perm.Perm (List.range (samplePool movies genre min_year).length))
    (hne : samplePool movies genre min_year ≠ []) :
    ∃ s, get_movies_by_genre_and_year movies genre min_year n perm = Except.ok s ∧
      s.length = min n (samplePool movies genre min_year).length ∧
      s.Nodup ∧
      ∀ m ∈ s,
        (∃ pre post, lowerChars m.genres = pre ++ lowerChars genre ++ post) ∧
        (∃ y, extract_year m.title = some y ∧ min_year ≤ y) := by
  set pool := samplePool movies genre min_year with hpooldef
  have hpoolnd : pool.Nodup := List.Nodup.filter _ hnd
  have hempty : pool.isEmpty = false := by
    cases hp : pool with
    | nil => exact absurd hp hne
    | cons a l => rfl
  have hlenperm : perm.length = pool.length := by
    simpa using hperm.length_eq
  have hvalid : ∀ i ∈ perm.take (min n pool.length), i < pool.length := by
    intro i hi
    have : i ∈ perm := List.mem_of_mem_take hi
    exact List.mem_range.mp (hperm.mem_iff.mp this)
  refine ⟨pandasSample pool (min n pool.length) perm, ?_, ?_, ?_, ?_⟩
  · rw [get_movies_by_genre_and_year]
    simp only [← hpooldef, hempty, Bool.false_eq_true, if_false]
  · rw [pandasSample, length_filterMap_getElem pool _ hvalid, List.length_take, hlenperm]
    rcases Nat.le_total n pool.length with h | h
    · rw [min_eq_left h, min_eq_left h]
    · rw [min_eq_right h, min_self]
  · exact nodup_filterMap_getElem pool _ hpoolnd
      (List.Nodup.sublist (List.take_sublist _ _) (hperm.nodup_iff.mpr (List.nodup_range _)))
      hvalid
  · intro m hm
    rcases mem_filterMap_getElem.mp hm with ⟨i, hir, hi, hget⟩
    have hmp : m ∈ pool := hget ▸ List.getElem_mem hi
    have hfl := List.of_mem_filter hmp
    rw [Bool.and_eq_true] at hfl
    exact ⟨(containsChars_iff _ _).mp hfl.1, (yearGeBool_iff _ _).mp hfl.2⟩

/-- Concrete run of C5: the pool for Comedy since 1990 is the single movie Toy
Story; the draw [0] returns it. -/
theorem sample_returns_min_distinct_witness :
    demoMovies.Nodup ∧
    ([0] : List Nat).Perm (List.range (samplePool demoMovies "Comedy" 1990).length) ∧
    samplePool demoMovies "Comedy" 1990 ≠ [] ∧
    ∃ s, get_movies_by_genre_and_year demoMovies "Comedy" 1990 15 [0] = Except.ok s ∧
      s.length = min 15 (samplePool demoMovies "Comedy" 1990).length ∧
      s.Nodup ∧
      ∀ m ∈ s,
        (∃ pre post, lowerChars m.genres = pre ++ lowerChars "Comedy" ++ post) ∧
        (∃ y, extract_year m.title = some y ∧ 1990 ≤ y) := by
  have hperm : ([0] : List Nat).Perm (List.range (samplePool demoMovies "Comedy" 1990).length) := by
    rw [show (samplePool demoMovies "Comedy" 1990).length = 1 from by decide]
    exact List.Perm.refl _
  exact ⟨by decide, hperm, by decide,
    sample_returns_min_distinct demoMovies "Comedy" 1990 15 [0] (by decide) hperm (by decide)⟩

/-! ### The recommendation engine (claims C1 to C4) -/

/-- With duplicate-free ids the title lookup of a present row returns that
row. -/
lemma find?_movieId_of_nodup (movies : List Movie) (m : Movie)
    (hnd : (movies.map Movie.movieId).Nodup) (hm : m ∈ movies) :
    movies.find? (fun mv => mv.movieId == m.movieId) = some m := by
  induction movies with
  | nil => cases hm
  | cons a l ih =>
    rw [List.map_cons, List.nodup_cons] at hnd
    rcases List.mem_cons.mp hm with rfl | hm
    · rw [List.find?_cons_of_pos]
      exact beq_self_eq_true _
    · have hne : (a.movieId == m.movieId) = false := by
        rw [beq_eq_false_iff_ne]
        intro h
        exact hnd.1 (h ▸ List.mem_map_of_mem Movie.movieId hm)
      rw [List.find?_cons_of_neg _ (by simp [hne]), ih hnd.2 hm]

/-- Every returned pair is the title image of a retained prediction. -/
lemma mem_train_and_recommend {model : PyVal → PyVal → Rat} {movies : List Movie}
    {all_ratings : List Rating} {genre_filter : String} {min_year : Int}
    {user_id : Int} {top_n : Nat} {p : String × Rat}
    (hp : p ∈ train_and_recommend model movies all_ratings genre_filter min_year user_id top_n) :
    ∃ q ∈ recommendRetained model movies all_ratings genre_filter min_year user_id,
      p = (titleOf movies q.movieId, q.est) := by
  rw [train_and_recommend] at hp
  split at hp
  · cases hp
  · rcases List.mem_map.mp hp with ⟨q, hq, rfl⟩
    rw [recommendSorted] at hq
    have h1 := (List.take_sublist _ _).subset hq
    exact ⟨q, List.mem_mergeSort.mp h1, rfl⟩

/-- Every retained prediction scores above 3 and stems from a candidate. -/
lemma mem_recommendRetained {model : PyVal → PyVal → Rat} {movies : List Movie}
    {all_ratings : List Rating} {genre_filter : String} {min_year : Int}
    {user_id : Int} {q : Pred}
    (hq : q ∈ recommendRetained model movies all_ratings genre_filter min_year user_id) :
    (3 : Rat) < q.est ∧
      ∃ m ∈ recommendCandidates movies all_ratings genre_filter min_year user_id,
        q.movieId = m.movieId := by
  rw [recommendRetained] at hq
  have h3 := List.of_mem_filter hq
  rw [decide_eq_true_eq] at h3
  have hq' := List.mem_of_mem_filter hq
  rw [recommendPredictions] at hq'
  rcases List.mem_map.mp hq' with ⟨m, hm, rfl⟩
  exact ⟨h3, m, hm, rfl⟩

/-- Every candidate is a catalog movie outside the seen set that passes the
genre and strict-year filters. -/
lemma mem_recommendCandidates {movies : List Movie} {all_ratings : List Rating}
    {genre_filter : String} {min_year : Int} {user_id : Int} {m : Movie}
    (hm : m ∈ recommendCandidates movies all_ratings genre_filter min_year user_id) :
    m ∈ movies ∧ m.movieId ∉ seenIds all_ratings user_id ∧
      containsCI m.genres genre_filter = true ∧ yearGtBool min_year m = true := by
  rw [recommendCandidates] at hm
  have h2 := List.of_mem_filter hm
  rw [Bool.and_eq_true] at h2
  have hm' := List.mem_of_mem_filter hm
  have h1 := List.of_mem_filter hm'
  have hmem := List.mem_of_mem_filter hm'
  refine ⟨hmem, ?_, h2.1, h2.2⟩
  simpa using h1

/-- C1: every pair returned by `train_and_recommend` names a catalog movie the
given user has not rated in the merged table, whose genre string contains the
genre argument as a case-insensitive substring, and whose parsed year is
defined and strictly greater than `min_year` (catalog ids assumed distinct, as
in `movies.csv`). -/
theorem recommend_unseen_genre_year (model : PyVal → PyVal → Rat) (movies : List Movie)
    (all_ratings : List Rating) (genre_filter : String) (min_year : Int)
    (user_id : Int) (top_n : Nat)
    (hnd : (movies.map Movie.movieId).Nodup) :
    ∀ p ∈ train_and_recommend model movies all_ratings genre_filter min_year user_id top_n,
      ∃ m ∈ movies, p.1 = m.title ∧
        m.movieId ∉ seenIds all_ratings user_id ∧
        (∃ pre post, lowerChars m.genres = pre ++ lowerChars genre_filter ++ post) ∧
        ∃ y, extract_year m.title = some y ∧ min_year < y := by
  intro p hp
  rcases mem_train_and_recommend hp with ⟨q, hq, rfl⟩
  rcases mem_recommendRetained hq with ⟨h3, m, hm, hid⟩
  rcases mem_recommendCandidates hm with ⟨hmem, hseen, hgen, hyear⟩
  refine ⟨m, hmem, ?_, hseen, (containsChars_iff _ _).mp hgen, (yearGtBool_iff _ _).mp hyear⟩
  show titleOf movies q.movieId = m.title
  rw [hid, titleOf, find?_movieId_of_nodup movies m hnd hmem]
  rfl

/-- C2: every returned prediction score is strictly greater than 3. -/
theorem recommend_scores_gt_three (model : PyVal → PyVal → Rat) (movies : List Movie)
    (all_ratings : List Rating) (genre_filter : String) (min_year : Int)
    (user_id : Int) (top_n : Nat) :
    ∀ p ∈ train_and_recommend model movies all_ratings genre_filter min_year user_id top_n,
      (3 : Rat) < p.2 := by
  intro p hp
  rcases mem_train_and_recommend hp with ⟨q, hq, rfl⟩
  exact (mem_recommendRetained hq).1

/-- The comparator is transitive. -/
lemma predLe_trans : ∀ a b c : Pred, predLe a b = true → predLe b c = true → predLe a c = true := by
  intro a b c
  simp only [predLe, decide_eq_true_eq]
  exact fun h1 h2 => le_trans h2 h1

/-- The comparator is total. -/
lemma predLe_total : ∀ a b : Pred, (predLe a b || predLe b a) = true := by
  intro a b
  simp only [predLe, Bool.or_eq_true, decide_eq_true_eq]
  exact le_total b.est a.est

/-- C3: the returned sequence is the title image of the stably sorted and
truncated retained list: its length is at most `top_n`, its scores descend,
and among retained predictions of equal score the output keeps processing
order — for every score value, the ties of the sorted/truncated list form a
prefix of the retained ties in input order, so the candidate processed
earlier appears first. -/
theorem recommend_sorted_stable_truncated (model : PyVal → PyVal → Rat) (movies : List Movie)
    (all_ratings : List Rating) (genre_filter : String) (min_year : Int)
    (user_id : Int) (top_n : Nat) :
    train_and_recommend model movies all_ratings genre_filter min_year user_id top_n =
      (recommendSorted model movies all_ratings genre_filter min_year user_id top_n).map
        (fun p => (titleOf movies p.movieId, p.est)) ∧
    (train_and_recommend model movies all_ratings genre_filter min_year user_id top_n).length ≤
      top_n ∧
    ((train_and_recommend model movies all_ratings genre_filter min_year user_id top_n).map
      Prod.snd).Pairwise (fun a b => b ≤ a) ∧
    ∀ q : Rat,
      (recommendSorted model movies all_ratings genre_filter min_year user_id top_n).filter
          (fun p => decide (p.est = q)) <+:
        (recommendRetained model movies all_ratings genre_filter min_year user_id).filter
          (fun p => decide (p.est = q)) := by
  have heq : train_and_recommend model movies all_ratings genre_filter min_year user_id top_n =
      (recommendSorted model movies all_ratings genre_filter min_year user_id top_n).map
        (fun p => (titleOf movies p.movieId, p.est)) := by
    rw [train_and_recommend]
    split
    · rename_i h
      have hc := List.isEmpty_iff.mp h
      rw [recommendSorted, recommendRetained, recommendPredictions, hc]
      simp
    · rfl
  have hms := List.sorted_mergeSort predLe_trans predLe_total
    (recommendRetained model movies all_ratings genre_filter min_year user_id)
  have hsorted : (recommendSorted model movies all_ratings genre_filter min_year
      user_id top_n).Pairwise (fun a b => predLe a b = true) := by
    rw [recommendSorted]
    exact List.Pairwise.sublist (List.take_sublist _ _) hms
  refine ⟨heq, ?_, ?_, ?_⟩
  · rw [heq, List.length_map, recommendSorted, List.length_take]
    exact min_le_left _ _
  · rw [heq, List.map_map]
    rw [List.pairwise_map]
    refine hsorted.imp ?_
    intro a b hab
    simpa [predLe] using hab
  · intro q
    have hA : ∀ x ∈ (recommendRetained model movies all_ratings genre_filter min_year
        user_id).filter (fun p => decide (p.est = q)), x.est = q := by
      intro x hx
      have := List.of_mem_filter hx
      rwa [decide_eq_true_eq] at this
    have hApw : ((recommendRetained model movies all_ratings genre_filter min_year
        user_id).filter (fun p => decide (p.est = q))).Pairwise
        (fun a b => predLe a b = true) := by
      apply List.pairwise_of_forall_mem_list
      intro a ha b hb
      simp only [predLe, decide_eq_true_eq]
      rw [hA a ha, hA b hb]
    have h1 := List.sublist_mergeSort predLe_trans predLe_total hApw
      (List.filter_sublist (recommendRetained model movies all_ratings genre_filter
        min_year user_id))
    have h2 := List.Sublist.filter (fun p => decide (p.est = q)) h1
    have hAe : ((recommendRetained model movies all_ratings genre_filter min_year
        user_id).filter (fun p => decide (p.est = q))).filter
          (fun p => decide (p.est = q)) =
        (recommendRetained model movies all_ratings genre_filter min_year user_id).filter
          (fun p => decide (p.est = q)) := by
      apply List.filter_eq_self.mpr
      intro a ha
      exact @List.of_mem_filter Pred (fun pr => decide (pr.est = q)) a
        (recommendRetained model movies all_ratings genre_filter min_year user_id) ha
    rw [hAe] at h2
    have hperm := List.Perm.filter (fun p => decide (p.est = q))
      (List.mergeSort_perm (recommendRetained model movies all_ratings genre_filter
        min_year user_id) predLe)
    have hAB := h2.eq_of_length hperm.length_eq.symm
    rw [recommendSorted, hAB]
    exact List.IsPrefix.filter _
      ⟨((recommendRetained model movies all_ratings genre_filter min_year
        user_id).mergeSort predLe).drop top_n, List.take_append_drop _ _⟩

/-- C4 (code bug): `train_and_recommend` does not query the fitted model with
the id pair as it appears in the training table.  For the merged table
`demoRatings` (whose raw user ids are the integers 7 and 9999) and the
candidate Toy Story (movie id 1), the pipeline queries the model at the
string pair `("9999", "1")` built by `str(...)`; the integer 9999 is a raw
trainset user id but the queried `PyVal.str "9999"` is not, so Surprise
treats the pair as unknown and answers with its global default instead of the
fitted factors of user 9999. -/
theorem predict_query_not_table_ids :
    predictQuery 9999 ⟨1, "Toy Story (1995)", "Adventure|Animation|Children|Comedy|Fantasy"⟩ =
      (PyVal.str "9999", PyVal.str "1") ∧
    (recommendPredictions demoModel demoMovies demoRatings "comedy" 1990 9999).map Pred.uid =
      [PyVal.str "9999"] ∧
    PyVal.int 9999 ∈ trainsetUsers demoRatings ∧
    PyVal.str "9999" ∉ trainsetUsers demoRatings ∧
    PyVal.str "9999" ≠ PyVal.int 9999 := by
  decide

/-- Evaluation of the demonstration run: user 9999 has seen Jumanji, Toy
Story matches Comedy after 1990, the constant model scores it 4 (above the
threshold 3), so it is the single recommendation. -/
lemma demo_recommend_eval :
    train_and_recommend demoModel demoMovies demoRatings "comedy" 1990 9999 5 =
      [("Toy Story (1995)", 4)] := by
  have h1 : recommendCandidates demoMovies demoRatings "comedy" 1990 9999 =
      [⟨1, "Toy Story (1995)", "Adventure|Animation|Children|Comedy|Fantasy"⟩] := by decide
  have h2 : recommendRetained demoModel demoMovies demoRatings "comedy" 1990 9999 =
      [⟨PyVal.str "9999", PyVal.str "1", 1, 4⟩] := by decide
  simp only [train_and_recommend, recommendSorted]
  rw [h1, h2, List.mergeSort_singleton]
  decide

/-- Concrete run of C1: the returned pair names Toy Story, unseen by user
9999, Comedy-matching, and from 1995 which is after 1990. -/
theorem recommend_unseen_genre_year_witness :
    (demoMovies.map Movie.movieId).Nodup ∧
    ("Toy Story (1995)", (4 : Rat)) ∈
      train_and_recommend demoModel demoMovies demoRatings "comedy" 1990 9999 5 ∧
    ∃ m ∈ demoMovies, ("Toy Story (1995)", (4 : Rat)).1 = m.title ∧
      m.movieId ∉ seenIds demoRatings 9999 ∧
      (∃ pre post, lowerChars m.genres = pre ++ lowerChars "comedy" ++ post) ∧
      ∃ y, extract_year m.title = some y ∧ 1990 < y := by
  have hmem : ("Toy Story (1995)", (4 : Rat)) ∈
      train_and_recommend demoModel demoMovies demoRatings "comedy" 1990 9999 5 := by
    rw [demo_recommend_eval]
    exact List.mem_singleton.mpr rfl
  exact ⟨by decide, hmem,
    recommend_unseen_genre_year demoModel demoMovies demoRatings "comedy" 1990 9999 5
      (by decide) _ hmem⟩

/-- Concrete run of C2: the returned score 4 is above 3. -/
theorem recommend_scores_gt_three_witness :
    ("Toy Story (1995)", (4 : Rat)) ∈
      train_and_recommend demoModel demoMovies demoRatings "comedy" 1990 9999 5 ∧
    (3 : Rat) < ("Toy Story (1995)", (4 : Rat)).2 := by
  have hmem : ("Toy Story (1995)", (4 : Rat)) ∈
      train_and_recommend demoModel demoMovies demoRatings "comedy" 1990 9999 5 := by
    rw [demo_recommend_eval]
    exact List.mem_singleton.mpr rfl
  exact ⟨hmem,
    recommend_scores_gt_three demoModel demoMovies demoRatings "comedy" 1990 9999 5 _ hmem⟩

end BasicRecommender
